import Mathlib

/-!
Shallow embedding of the wardrobe-manager integration core
(src/custom_components/wardrobe_manager): the enums of const.py, the garment
data model and transition function of state_machine.py, the coordinator
directory operations and scan handling of coordinator.py, and the
needs-washing indicator of binary_sensor.py.

Modelling conventions: the clock read `datetime.now(timezone.utc).isoformat()`
is passed in as an explicit `now : String` argument; Python dictionaries
become association lists; a raised exception becomes `none`; the in-place
mutation of a garment by `transition` is modelled by `transitionStep`, whose
first component is the garment object after the call (unchanged on rejection)
and whose second component is the Python return value.
-/

namespace WardrobeManager

/-- Scanner roles, from const.py `ScannerRole` (a `StrEnum` with five members). -/
inductive ScannerRole where
  | closet
  | laundry_bin
  | washer
  | dryer
  | ironing
  deriving DecidableEq

/-- The `.value` string of each `ScannerRole` member. -/
def ScannerRole.value : ScannerRole → String
  | .closet => "closet"
  | .laundry_bin => "laundry_bin"
  | .washer => "washer"
  | .dryer => "dryer"
  | .ironing => "ironing"

/-- The `ScannerRole(s)` constructor call: `some` on a member value string,
`none` where Python raises `ValueError`. -/
def ScannerRole.ofValue (s : String) : Option ScannerRole :=
  if s = "closet" then some .closet
  else if s = "laundry_bin" then some .laundry_bin
  else if s = "washer" then some .washer
  else if s = "dryer" then some .dryer
  else if s = "ironing" then some .ironing
  else none

/-- Garment states, from const.py `GarmentState` (a `StrEnum` with six members). -/
inductive GarmentState where
  | clean
  | worn
  | in_laundry_bin
  | washing
  | drying
  | needs_ironing
  deriving DecidableEq

/-- The `.value` string of each `GarmentState` member. -/
def GarmentState.value : GarmentState → String
  | .clean => "clean"
  | .worn => "worn"
  | .in_laundry_bin => "in_laundry_bin"
  | .washing => "washing"
  | .drying => "drying"
  | .needs_ironing => "needs_ironing"

/-- The `GarmentState(s)` constructor call: `some` on a member value string,
`none` where Python raises `ValueError`. -/
def GarmentState.ofValue (s : String) : Option GarmentState :=
  if s = "clean" then some .clean
  else if s = "worn" then some .worn
  else if s = "in_laundry_bin" then some .in_laundry_bin
  else if s = "washing" then some .washing
  else if s = "drying" then some .drying
  else if s = "needs_ironing" then some .needs_ironing
  else none

/-- A recorded wash event, from state_machine.py `WashCycle`. -/
structure WashCycle where
  timestamp : String
  method : String
  deriving DecidableEq

/-- In-memory representation of a garment, from state_machine.py `GarmentData`.
Counters are Python ints, hence `Int`. -/
structure GarmentData where
  tag_id : String
  name : String
  category : String
  color : String
  garment_state : GarmentState := .clean
  wear_count_since_wash : Int := 0
  total_wear_count : Int := 0
  needs_washing_threshold : Int := 3
  last_worn : Option String := none
  last_washed : Option String := none
  last_scanned_at : Option String := none
  wash_cycles : List WashCycle := []
  deriving DecidableEq

/-- The fixed transition table of state_machine.py, keyed by
`(scanner_role, from_state)`; `none` is absence of the key. -/
def TRANSITIONS : ScannerRole → GarmentState → Option GarmentState
  | .closet, .clean => some .worn
  | .closet, .worn => some .clean
  | .closet, .in_laundry_bin => some .clean
  | .closet, .drying => some .clean
  | .closet, .needs_ironing => some .clean
  | .laundry_bin, .worn => some .in_laundry_bin
  | .washer, .in_laundry_bin => some .washing
  | .dryer, .washing => some .drying
  | .ironing, .drying => some .needs_ironing
  | .ironing, .washing => some .needs_ironing
  | _, _ => none

/-- state_machine.py `transition`, made explicit about mutation: the first
component is the garment object after the call (the input, unchanged, when the
lookup misses and the function returns early), the second is the return value
(`none` for the Python `None`). On acceptance the function mutates and returns
the same object, so the two components coincide. -/
def transitionStep (garment : GarmentData) (scanner_role : ScannerRole)
    (scanner_id : String) (now : String) : GarmentData × Option GarmentData :=
  match TRANSITIONS scanner_role garment.garment_state with
  | none => (garment, none)
  | some new_state =>
    let g1 := { garment with garment_state := new_state,
                             last_scanned_at := some scanner_id }
    let g2 :=
      if new_state = GarmentState.worn then
        { g1 with wear_count_since_wash := g1.wear_count_since_wash + 1,
                  total_wear_count := g1.total_wear_count + 1,
                  last_worn := some now }
      else g1
    let g3 :=
      if new_state = GarmentState.washing then
        { g2 with wear_count_since_wash := 0,
                  last_washed := some now,
                  wash_cycles := g2.wash_cycles ++ [⟨now, "machine"⟩] }
      else g2
    (g3, some g3)

/-- The return value of state_machine.py `transition`. -/
def transition (garment : GarmentData) (scanner_role : ScannerRole)
    (scanner_id : String) (now : String) : Option GarmentData :=
  (transitionStep garment scanner_role scanner_id now).2

/-- A wash-cycle entry of the storage dictionary; each field's key may be
absent (`none`), in which case Python's `wc["timestamp"]` raises `KeyError`. -/
structure StoredWashCycle where
  timestamp : Option String
  method : Option String
  deriving DecidableEq

/-- A stored garment dictionary as consumed by `GarmentData.from_dict`: every
key may be absent. For `last_worn`, `last_washed` and `last_scanned_at` an
absent key and a stored null are indistinguishable to `data.get`, so one
`Option` covers both. -/
structure StoredDict where
  name : Option String
  category : Option String
  color : Option String
  garment_state : Option String
  wear_count_since_wash : Option Int
  total_wear_count : Option Int
  needs_washing_threshold : Option Int
  last_worn : Option String
  last_washed : Option String
  last_scanned_at : Option String
  wash_cycles : Option (List StoredWashCycle)
  deriving DecidableEq

/-- The inline dictionary `{"timestamp": wc.timestamp, "method": wc.method}`
built by `to_dict` for each wash cycle. -/
def encodeWashCycle (wc : WashCycle) : StoredWashCycle :=
  { timestamp := some wc.timestamp, method := some wc.method }

/-- state_machine.py `GarmentData.to_dict`: serialize to a storage dictionary;
every key is written. -/
def GarmentData.to_dict (g : GarmentData) : StoredDict :=
  { name := some g.name
    category := some g.category
    color := some g.color
    garment_state := some g.garment_state.value
    wear_count_since_wash := some g.wear_count_since_wash
    total_wear_count := some g.total_wear_count
    needs_washing_threshold := some g.needs_washing_threshold
    last_worn := g.last_worn
    last_washed := g.last_washed
    last_scanned_at := g.last_scanned_at
    wash_cycles := some (g.wash_cycles.map encodeWashCycle) }

/-- Decoding of one stored wash-cycle entry inside `from_dict`:
`WashCycle(timestamp=wc["timestamp"], method=wc["method"])`; a missing key is
a `KeyError`, hence `none`. -/
def decodeWashCycle (wc : StoredWashCycle) : Option WashCycle :=
  match wc.timestamp with
  | none => none
  | some t =>
    match wc.method with
    | none => none
    | some m => some { timestamp := t, method := m }

/-- Decoding of the stored wash-cycle list inside `from_dict`; fails if any
entry fails. -/
def decodeWashCycles : List StoredWashCycle → Option (List WashCycle)
  | [] => some []
  | wc :: rest =>
    match decodeWashCycle wc with
    | none => none
    | some c =>
      match decodeWashCycles rest with
      | none => none
      | some cs => some (c :: cs)

/-- state_machine.py `GarmentData.from_dict`: deserialize from a storage
dictionary. `data["name"]` and `data["category"]` raise `KeyError` when
absent; `GarmentState(...)` raises `ValueError` on an unrecognized state
string; every raised exception is `none`. All other fields default via
`data.get`. -/
def GarmentData.from_dict (tag_id : String) (data : StoredDict) :
    Option GarmentData :=
  match data.name with
  | none => none
  | some nm =>
    match data.category with
    | none => none
    | some cat =>
      match GarmentState.ofValue (data.garment_state.getD "clean") with
      | none => none
      | some st =>
        match decodeWashCycles (data.wash_cycles.getD []) with
        | none => none
        | some cycles =>
          some { tag_id := tag_id
                 name := nm
                 category := cat
                 color := data.color.getD ""
                 garment_state := st
                 wear_count_since_wash := data.wear_count_since_wash.getD 0
                 total_wear_count := data.total_wear_count.getD 0
                 needs_washing_threshold := data.needs_washing_threshold.getD 3
                 last_worn := data.last_worn
                 last_washed := data.last_washed
                 last_scanned_at := data.last_scanned_at
                 wash_cycles := cycles }

/-- Python `dict.get`: first binding of the key in an association list. -/
def dictGet {α : Type} : List (String × α) → String → Option α
  | [], _ => none
  | (k, v) :: rest, key => if k = key then some v else dictGet rest key

/-- Python `d[key] = v`: replace the binding in place when the key is present,
append a new binding otherwise. -/
def dictSet {α : Type} : List (String × α) → String → α → List (String × α)
  | [], key, v => [(key, v)]
  | (k, w) :: rest, key, v =>
    if k = key then (key, v) :: rest else (k, w) :: dictSet rest key v

/-- The coordinator's garment directory `self.garments`. -/
abbrev Garments := List (String × GarmentData)

/-- A scanner directory entry `{"role": ..., "name": ...}`; either key may be
absent, making `scanner["role"]` a `KeyError`. -/
structure ScannerEntry where
  role : Option String
  name : Option String
  deriving DecidableEq

/-- The coordinator's scanner directory `self.scanners`. -/
abbrev Scanners := List (String × ScannerEntry)

/-- coordinator.py `get_scanner_role`: resolve a scanner_id to its role;
`none` on a missing entry, a missing "role" key (`KeyError`) or an
unrecognized role string (`ValueError`). -/
def get_scanner_role (scanners : Scanners) (scanner_id : String) :
    Option ScannerRole :=
  match dictGet scanners scanner_id with
  | none => none
  | some entry =>
    match entry.role with
    | none => none
    | some r => ScannerRole.ofValue r

/-- An inbound scan event's data: either field may be absent. -/
structure ScanEvent where
  tag_id : Option String
  scanner_id : Option String
  deriving DecidableEq

/-- The observable outcome of `handle_tag_scanned`. `ignored` is the fully
silent early return (missing/falsy field or unregistered scanner);
`unknownTag` carries the payload of the fired `wardrobe_manager_unknown_tag`
event; `invalidTransition` is the silent rejected-transition return;
`accepted` is the save-and-notify path. -/
inductive ScanOutcome where
  | ignored
  | unknownTag (tag_id : String) (scanner_role : String)
  | invalidTransition
  | accepted
  deriving DecidableEq

/-- coordinator.py `handle_tag_scanned`. Python's `if not tag_id or not
scanner_id` treats both a missing field and an empty string as falsy. On
acceptance the mutated garment object is the one already stored in the
directory; `dictSet` re-binds it explicitly. -/
def handle_tag_scanned (scanners : Scanners) (garments : Garments)
    (event : ScanEvent) (now : String) : Garments × ScanOutcome :=
  match event.tag_id, event.scanner_id with
  | none, _ => (garments, .ignored)
  | some _, none => (garments, .ignored)
  | some tag, some sid =>
    if tag = "" ∨ sid = "" then (garments, .ignored)
    else
      match get_scanner_role scanners sid with
      | none => (garments, .ignored)
      | some role =>
        match dictGet garments tag with
        | none => (garments, .unknownTag tag role.value)
        | some garment =>
          match transitionStep garment role sid now with
          | (_, none) => (garments, .invalidTransition)
          | (g, some _) => (dictSet garments tag g, .accepted)

/-- coordinator.py `async_register_garment`: build a fresh `GarmentData`
(dataclass defaults: state clean, counters 0, no timestamps, empty
wash_cycles) and bind it to the tag, replacing any existing record. -/
def async_register_garment (garments : Garments) (tag_id nm cat col : String)
    (needs_washing_threshold : Int) : Garments × GarmentData :=
  let g : GarmentData :=
    { tag_id := tag_id, name := nm, category := cat, color := col,
      needs_washing_threshold := needs_washing_threshold }
  (dictSet garments tag_id g, g)

/-- coordinator.py `async_force_state`: set `garment_state` directly; `false`
and no change when the tag is unknown. -/
def async_force_state (garments : Garments) (tag_id : String)
    (state : GarmentState) : Garments × Bool :=
  match dictGet garments tag_id with
  | none => (garments, false)
  | some g => (dictSet garments tag_id { g with garment_state := state }, true)

/-- coordinator.py `async_log_wash_cycle`: manually log a wash cycle without a
scanner; `false` and no change when the tag is unknown. -/
def async_log_wash_cycle (garments : Garments) (tag_id method now : String) :
    Garments × Bool :=
  match dictGet garments tag_id with
  | none => (garments, false)
  | some g =>
    (dictSet garments tag_id
      { g with garment_state := .washing,
               wear_count_since_wash := 0,
               last_washed := some now,
               wash_cycles := g.wash_cycles ++ [⟨now, method⟩] }, true)

/-- binary_sensor.py `NeedsWashingBinarySensor.is_on`: `none` when the tag has
no garment record, otherwise whether
`wear_count_since_wash >= needs_washing_threshold`. -/
def needs_washing_is_on (garments : Garments) (tag_id : String) :
    Option Bool :=
  match dictGet garments tag_id with
  | none => none
  | some g =>
    some (decide (g.needs_washing_threshold ≤ g.wear_count_since_wash))

/-- Length of the wash_cycles list stored under a tag (0 when absent). -/
def cyclesLenAt (garments : Garments) (tag_id : String) : Nat :=
  match dictGet garments tag_id with
  | none => 0
  | some g => g.wash_cycles.length

/-- All five scanner roles. -/
def rolesList : List ScannerRole :=
  [.closet, .laundry_bin, .washer, .dryer, .ironing]

/-- All six garment states. -/
def statesList : List GarmentState :=
  [.clean, .worn, .in_laundry_bin, .washing, .drying, .needs_ironing]

/-- The number of `(scanner_role, from_state)` pairs absent from the
transition table. -/
def nonTablePairsCount : Nat :=
  (rolesList.flatMap fun r =>
    (statesList.filter fun s => (TRANSITIONS r s).isNone)).length

/-- A concrete freshly registered garment, used by concrete instantiations. -/
def sampleGarment : GarmentData :=
  { tag_id := "tag1", name := "tee", category := "t_shirt", color := "blue" }

/-- `sampleGarment` after a closet scan with scanner id "s1" at time "t1". -/
def wornSample : GarmentData :=
  { sampleGarment with
    garment_state := .worn,
    last_scanned_at := some "s1",
    wear_count_since_wash := 1,
    total_wear_count := 1,
    last_worn := some "t1" }

/-- A concrete garment sitting in the laundry bin with accumulated wear. -/
def binSample : GarmentData :=
  { sampleGarment with
    garment_state := .in_laundry_bin,
    wear_count_since_wash := 5,
    total_wear_count := 20 }

/-- A concrete clean garment with one recorded wash cycle. -/
def washedSample : GarmentData :=
  { sampleGarment with
    wash_cycles := [{ timestamp := "2024-01-01T00:00:00+00:00",
                      method := "machine" }] }

/-- A concrete garment worn exactly threshold-many times since washing. -/
def wornThrice : GarmentData :=
  { sampleGarment with
    wear_count_since_wash := 3,
    total_wear_count := 3 }

section Lemmas

lemma dictGet_dictSet_self {α : Type} (l : List (String × α)) (k : String)
    (v : α) : dictGet (dictSet l k v) k = some v := by
  induction l with
  | nil => simp [dictSet, dictGet]
  | cons p rest ih =>
    rcases p with ⟨k1, w⟩
    by_cases h : k1 = k <;> simp [dictSet, dictGet, h, ih]

lemma dictGet_dictSet_ne {α : Type} (l : List (String × α)) (k t : String)
    (v : α) (h : t ≠ k) : dictGet (dictSet l k v) t = dictGet l t := by
  have h2 : k ≠ t := Ne.symm h
  induction l with
  | nil => simp [dictSet, dictGet, h2]
  | cons p rest ih =>
    rcases p with ⟨k1, w⟩
    by_cases h1 : k1 = k
    · subst h1
      simp [dictSet, dictGet, h2]
    · simp [dictSet, dictGet, h1, ih]

lemma GarmentState.ofValue_value (st : GarmentState) :
    GarmentState.ofValue st.value = some st := by
  cases st <;> decide

lemma decodeWashCycles_encode (l : List WashCycle) :
    decodeWashCycles (l.map encodeWashCycle) = some l := by
  induction l with
  | nil => rfl
  | cons c rest ih =>
    simp [decodeWashCycles, encodeWashCycle, decodeWashCycle, ih]

lemma decodeWashCycles_isSome (l : List StoredWashCycle) :
    (decodeWashCycles l).isSome ↔
      ∀ wc ∈ l, wc.timestamp.isSome ∧ wc.method.isSome := by
  induction l with
  | nil => simp [decodeWashCycles]
  | cons wc rest ih =>
    rcases wc with ⟨t, m⟩
    cases t <;> cases m <;>
      simp [decodeWashCycles, decodeWashCycle, ih] <;>
      cases hr : decodeWashCycles rest <;>
        simp [hr] at ih ⊢ <;> exact ih

lemma transitionStep_cycles_le (g : GarmentData) (role : ScannerRole)
    (sid now : String) :
    g.wash_cycles.length ≤
      (transitionStep g role sid now).1.wash_cycles.length := by
  unfold transitionStep
  cases hT : TRANSITIONS role g.garment_state with
  | none => simp
  | some ns =>
    simp only
    split <;> split <;> simp [List.length_append]

lemma cyclesLenAt_dictSet_le (garments : Garments) (tag : String)
    (g g2 : GarmentData) (hg : dictGet garments tag = some g)
    (hle : g.wash_cycles.length ≤ g2.wash_cycles.length) (t : String) :
    cyclesLenAt garments t ≤ cyclesLenAt (dictSet garments tag g2) t := by
  by_cases h : t = tag
  · subst h
    simpa [cyclesLenAt, dictGet_dictSet_self garments t g2, hg] using hle
  · simp [cyclesLenAt, dictGet_dictSet_ne garments tag t g2 h]

end Lemmas

/-- Claim C1: the transition table holds exactly the 10 listed
`(scanner_role, from_state) → to_state` entries, and for every garment whose
current state keys the table with the given role, `transition` accepts,
returning the garment with its state set to the tabulated target and
`last_scanned_at` set to the supplied scanner id. -/
theorem transition_accepts_table :
    (TRANSITIONS .closet .clean = some .worn ∧
     TRANSITIONS .closet .worn = some .clean ∧
     TRANSITIONS .closet .in_laundry_bin = some .clean ∧
     TRANSITIONS .closet .drying = some .clean ∧
     TRANSITIONS .closet .needs_ironing = some .clean ∧
     TRANSITIONS .laundry_bin .worn = some .in_laundry_bin ∧
     TRANSITIONS .washer .in_laundry_bin = some .washing ∧
     TRANSITIONS .dryer .washing = some .drying ∧
     TRANSITIONS .ironing .drying = some .needs_ironing ∧
     TRANSITIONS .ironing .washing = some .needs_ironing) ∧
    ∀ (g : GarmentData) (role : ScannerRole) (sid now : String)
      (target : GarmentState),
      TRANSITIONS role g.garment_state = some target →
      transition g role sid now = some (transitionStep g role sid now).1 ∧
      (transitionStep g role sid now).1.garment_state = target ∧
      (transitionStep g role sid now).1.last_scanned_at = some sid := by
  refine ⟨by decide, ?_⟩
  intro g role sid now target h
  cases target <;> simp [transition, transitionStep, h]

/-- Witness for C1: a concrete closet scan of a clean garment is accepted,
lands in state worn and records scanner id "s1". -/
theorem transition_accepts_table_witness :
    transition sampleGarment .closet "s1" "t1" =
      some (transitionStep sampleGarment .closet "s1" "t1").1 ∧
    (transitionStep sampleGarment .closet "s1" "t1").1.garment_state =
      .worn ∧
    (transitionStep sampleGarment .closet "s1" "t1").1.last_scanned_at =
      some "s1" :=
  transition_accepts_table.2 sampleGarment .closet "s1" "t1" .worn (by decide)

/-- Claim C2 (amended): exactly 20 `(scanner_role, from_state)` pairs — not
35 — are absent from the transition table (5 roles × 6 states = 30, minus the
10 entries), and on every such pair `transition` rejects: the call returns
`none` and leaves the input garment object identical in all fields, and a
second call on the same rejected input again returns `none` without mutating
it. -/
theorem transition_rejects_nontable :
    nonTablePairsCount = 20 ∧
    ∀ (g : GarmentData) (role : ScannerRole) (sid now : String),
      TRANSITIONS role g.garment_state = none →
      transitionStep g role sid now = (g, none) ∧
      transitionStep (transitionStep g role sid now).1 role sid now =
        (g, none) := by
  refine ⟨by decide, ?_⟩
  intro g role sid now h
  have h1 : transitionStep g role sid now = (g, none) := by
    simp [transitionStep, h]
  exact ⟨h1, by rw [h1]; exact h1⟩

/-- Counterexample for C2 as stated: the number of `(role, state)` pairs
absent from the table is 20, not the 35 the claim carries over from the
spec. -/
theorem nontable_pair_count_not_35 :
    nonTablePairsCount = 20 ∧ ¬ nonTablePairsCount = 35 := by decide

/-- Witness for C2: a washer scan of a clean garment is rejected twice
without any mutation. -/
theorem transition_rejects_nontable_witness :
    transitionStep sampleGarment .washer "s1" "t1" = (sampleGarment, none) ∧
    transitionStep (transitionStep sampleGarment .washer "s1" "t1").1
      .washer "s1" "t1" = (sampleGarment, none) :=
  transition_rejects_nontable.2 sampleGarment .washer "s1" "t1" (by decide)

/-- Claim C3: on every accepted transition the descriptive fields are kept
and `last_scanned_at` is set; entering worn bumps both wear counters by one
and stamps `last_worn`; entering washing zeroes `wear_count_since_wash`,
keeps `total_wear_count`, stamps `last_washed` and appends exactly one
machine wash-cycle record; entering any other state changes no counter,
wear/wash timestamp or wash_cycles; and no transition enters both worn and
washing. -/
theorem transition_side_effects :
    ∀ (g : GarmentData) (role : ScannerRole) (sid now : String)
      (g2 : GarmentData),
      transition g role sid now = some g2 →
      (g2.tag_id = g.tag_id ∧ g2.name = g.name ∧ g2.category = g.category ∧
       g2.color = g.color ∧
       g2.needs_washing_threshold = g.needs_washing_threshold ∧
       g2.last_scanned_at = some sid) ∧
      (g2.garment_state = .worn →
        g2.wear_count_since_wash = g.wear_count_since_wash + 1 ∧
        g2.total_wear_count = g.total_wear_count + 1 ∧
        g2.last_worn = some now ∧
        g2.last_washed = g.last_washed ∧
        g2.wash_cycles = g.wash_cycles) ∧
      (g2.garment_state = .washing →
        g2.wear_count_since_wash = 0 ∧
        g2.total_wear_count = g.total_wear_count ∧
        g2.last_washed = some now ∧
        g2.last_worn = g.last_worn ∧
        g2.wash_cycles =
          g.wash_cycles ++ [{ timestamp := now, method := "machine" }]) ∧
      (g2.garment_state ≠ .worn → g2.garment_state ≠ .washing →
        g2.wear_count_since_wash = g.wear_count_since_wash ∧
        g2.total_wear_count = g.total_wear_count ∧
        g2.last_worn = g.last_worn ∧
        g2.last_washed = g.last_washed ∧
        g2.wash_cycles = g.wash_cycles) ∧
      ¬(g2.garment_state = .worn ∧ g2.garment_state = .washing) := by
  intro g role sid now g2 h
  simp only [transition, transitionStep] at h
  rcases hT : TRANSITIONS role g.garment_state with _ | ns
  · rw [hT] at h
    simp at h
  · rw [hT] at h
    simp only [Option.some.injEq] at h
    subst h
    cases ns <;> simp

/-- Witness for C3: the concrete closet scan of `sampleGarment` bumps both
counters to 1, stamps `last_worn`, and keeps wash data untouched. -/
theorem transition_side_effects_witness :
    wornSample.last_scanned_at = some "s1" ∧
    wornSample.wear_count_since_wash =
      sampleGarment.wear_count_since_wash + 1 ∧
    wornSample.total_wear_count = sampleGarment.total_wear_count + 1 ∧
    wornSample.last_worn = some "t1" ∧
    wornSample.wash_cycles = sampleGarment.wash_cycles := by
  have h := transition_side_effects sampleGarment .closet "s1" "t1"
    wornSample (by decide)
  have hw := h.2.1 (by decide)
  exact ⟨h.1.2.2.2.2.2, hw.1, hw.2.1, hw.2.2.1, hw.2.2.2.2⟩

/-- Counterexample for C4 as stated: re-registering an existing tag replaces
the record with a fresh garment whose `wash_cycles` is empty, so the length
under that tag drops from 1 to 0. -/
theorem register_shrinks_wash_cycles :
    cyclesLenAt [("tag1", washedSample)] "tag1" = 1 ∧
    cyclesLenAt
      (async_register_garment [("tag1", washedSample)]
        "tag1" "tee" "t_shirt" "blue" 3).1 "tag1" = 0 := by decide

/-- Claim C4 (amended): no accepted transition, scan handling, force-state
call or manual wash-log call ever shortens a garment's `wash_cycles`; the
stored length under any tag is non-decreasing across these operations.
Re-registration is excluded: it replaces the record with a fresh one whose
`wash_cycles` is empty. -/
theorem wash_cycles_length_monotone :
    ∀ (garments : Garments) (t : String),
      (∀ (g : GarmentData) (role : ScannerRole) (sid now : String),
        g.wash_cycles.length ≤
          (transitionStep g role sid now).1.wash_cycles.length) ∧
      (∀ (scanners : Scanners) (ev : ScanEvent) (now : String),
        cyclesLenAt garments t ≤
          cyclesLenAt (handle_tag_scanned scanners garments ev now).1 t) ∧
      (∀ (tag : String) (st : GarmentState),
        cyclesLenAt garments t ≤
          cyclesLenAt (async_force_state garments tag st).1 t) ∧
      (∀ (tag method now : String),
        cyclesLenAt garments t ≤
          cyclesLenAt (async_log_wash_cycle garments tag method now).1 t) := by
  intro garments t
  refine ⟨fun g role sid now => transitionStep_cycles_le g role sid now,
    ?_, ?_, ?_⟩
  · intro scanners ev now
    rcases ev with ⟨tg, sc⟩
    rcases tg with _ | tag
    · simp [handle_tag_scanned]
    · rcases sc with _ | sid
      · simp [handle_tag_scanned]
      · by_cases hemp : tag = "" ∨ sid = ""
        · simp [handle_tag_scanned, hemp]
        · cases hrole : get_scanner_role scanners sid with
          | none => simp [handle_tag_scanned, hemp, hrole]
          | some role =>
            cases hg : dictGet garments tag with
            | none => simp [handle_tag_scanned, hemp, hrole, hg]
            | some garment =>
              cases hstep : transitionStep garment role sid now with
              | mk g1 res =>
                cases res with
                | none => simp [handle_tag_scanned, hemp, hrole, hg, hstep]
                | some val =>
                  have h1 : g1 = (transitionStep garment role sid now).1 := by
                    rw [hstep]
                  have hle :=
                    h1 ▸ transitionStep_cycles_le garment role sid now
                  simp only [handle_tag_scanned, hemp, hrole, hg, hstep,
                    or_self, ite_false]
                  exact cyclesLenAt_dictSet_le garments tag garment g1 hg
                    hle t
  · intro tag st
    unfold async_force_state
    cases hg : dictGet garments tag with
    | none => exact le_refl _
    | some g =>
      exact cyclesLenAt_dictSet_le garments tag g
        { g with garment_state := st } hg (le_refl _) t
  · intro tag method now
    unfold async_log_wash_cycle
    cases hg : dictGet garments tag with
    | none => exact le_refl _
    | some g =>
      refine cyclesLenAt_dictSet_le garments tag g _ hg ?_ t
      simp

/-- Counterexample for C5 as stated: `from_dict` does not return normally on
every stored dictionary — on a record whose `garment_state` string is not one
of the six states, `GarmentState(...)` raises `ValueError` (modelled as
`none`). -/
theorem from_dict_raises_on_bad_state :
    GarmentData.from_dict "tag1"
      { name := some "tee", category := some "t_shirt", color := none,
        garment_state := some "damp", wear_count_since_wash := none,
        total_wear_count := none, needs_washing_threshold := none,
        last_worn := none, last_washed := none, last_scanned_at := none,
        wash_cycles := none } = none := by decide

/-- Claim C5 (amended): transition, serialization, force-state, manual
wash-log and scan handling return normally on every input, but
deserialization does not: `from_dict` succeeds exactly when the stored
dictionary has `name` and `category`, its `garment_state` (when present) is
one of the six state strings, and every stored wash-cycle entry has both
`timestamp` and `method`; on any other dictionary it raises instead of
degrading to a no-op. -/
theorem from_dict_isSome_iff :
    ∀ (t : String) (d : StoredDict),
      (GarmentData.from_dict t d).isSome ↔
        (d.name.isSome ∧ d.category.isSome ∧
         (GarmentState.ofValue (d.garment_state.getD "clean")).isSome ∧
         ∀ wc ∈ d.wash_cycles.getD [],
           wc.timestamp.isSome ∧ wc.method.isSome) := by
  intro t d
  unfold GarmentData.from_dict
  rcases d with ⟨nm, cat, col, gs, w1, w2, thr, lw, lwa, lsa, wcs⟩
  cases nm <;> cases cat <;> simp
  cases hst : GarmentState.ofValue (gs.getD "clean") <;> simp
  cases hdec : decodeWashCycles (wcs.getD []) <;>
    simpa [hdec] using (decodeWashCycles_isSome (wcs.getD [])).symm

/-- Claim C6: serialization round-trips exactly — decoding the encoding of
any garment record under its own tag id reproduces every field. -/
theorem to_dict_from_dict_round_trip :
    ∀ g : GarmentData,
      GarmentData.from_dict g.tag_id g.to_dict = some g := by
  intro g
  rcases g with ⟨tid, nm, cat, col, st, w1, w2, thr, lw, lwa, lsa, wcs⟩
  simp [GarmentData.to_dict, GarmentData.from_dict,
    GarmentState.ofValue_value, decodeWashCycles_encode]

/-- Claim C7: force-state on a known tag sets that garment's state to the
requested value (any of the six, no reachability check), leaves every other
field unchanged, leaves every other tag's record untouched, and returns true;
on an unknown tag it returns false and changes nothing. -/
theorem async_force_state_spec :
    ∀ (garments : Garments) (tag : String) (st : GarmentState),
      (∀ g, dictGet garments tag = some g →
        (async_force_state garments tag st).2 = true ∧
        dictGet (async_force_state garments tag st).1 tag =
          some { g with garment_state := st } ∧
        ({ g with garment_state := st } : GarmentData).garment_state = st ∧
        ({ g with garment_state := st } : GarmentData).wear_count_since_wash
          = g.wear_count_since_wash ∧
        ({ g with garment_state := st } : GarmentData).total_wear_count =
          g.total_wear_count ∧
        ({ g with garment_state := st } : GarmentData).last_worn =
          g.last_worn ∧
        ({ g with garment_state := st } : GarmentData).last_washed =
          g.last_washed ∧
        ({ g with garment_state := st } : GarmentData).last_scanned_at =
          g.last_scanned_at ∧
        ({ g with garment_state := st } : GarmentData).wash_cycles =
          g.wash_cycles ∧
        ({ g with garment_state := st } : GarmentData).tag_id = g.tag_id ∧
        ({ g with garment_state := st } : GarmentData).name = g.name ∧
        ({ g with garment_state := st } : GarmentData).category =
          g.category ∧
        ({ g with garment_state := st } : GarmentData).color = g.color ∧
        ({ g with garment_state := st } : GarmentData).needs_washing_threshold
          = g.needs_washing_threshold ∧
        ∀ t, t ≠ tag →
          dictGet (async_force_state garments tag st).1 t =
            dictGet garments t) ∧
      (dictGet garments tag = none →
        async_force_state garments tag st = (garments, false)) := by
  intro garments tag st
  constructor
  · intro g hg
    refine ⟨by simp [async_force_state, hg], ?_, rfl, rfl, rfl, rfl, rfl,
      rfl, rfl, rfl, rfl, rfl, rfl, rfl, ?_⟩
    · simp [async_force_state, hg, dictGet_dictSet_self]
    · intro t ht
      simp [async_force_state, hg, dictGet_dictSet_ne garments tag t _ ht]
  · intro hg
    simp [async_force_state, hg]

/-- Witness for C7: forcing the sample garment to drying succeeds, stores
the state, and keeps the wash history; forcing an absent tag fails. -/
theorem async_force_state_spec_witness :
    (async_force_state [("tag1", sampleGarment)] "tag1" .drying).2 = true ∧
    dictGet (async_force_state [("tag1", sampleGarment)] "tag1" .drying).1
      "tag1" = some { sampleGarment with garment_state := .drying } ∧
    async_force_state [] "tag1" .drying = ([], false) := by
  have h1 := (async_force_state_spec [("tag1", sampleGarment)] "tag1"
    .drying).1 sampleGarment (by decide)
  have h2 := (async_force_state_spec [] "tag1" .drying).2 (by decide)
  exact ⟨h1.1, h1.2.1, h2⟩

/-- Claim C8: the manual wash-log on a known tag, from any current state,
sets the state to washing, zeroes `wear_count_since_wash`, stamps
`last_washed`, appends exactly one wash-cycle record with the caller's
method, changes nothing else (in particular neither `total_wear_count` nor
`last_scanned_at`), leaves other tags alone, and returns true; and its
record effect equals the scan-triggered washing side effects with the
"machine" label replaced by the caller's method and `last_scanned_at` kept.
On an unknown tag it returns false and changes nothing. -/
theorem async_log_wash_cycle_spec :
    ∀ (garments : Garments) (tag method now : String),
      (∀ g, dictGet garments tag = some g →
        (async_log_wash_cycle garments tag method now).2 = true ∧
        dictGet (async_log_wash_cycle garments tag method now).1 tag =
          some { g with garment_state := .washing,
                        wear_count_since_wash := 0,
                        last_washed := some now,
                        wash_cycles := g.wash_cycles ++
                          [{ timestamp := now, method := method }] } ∧
        (∀ t, t ≠ tag →
          dictGet (async_log_wash_cycle garments tag method now).1 t =
            dictGet garments t) ∧
        (∀ sid, g.garment_state = .in_laundry_bin →
          ∃ gt : GarmentData, transition g .washer sid now = some gt ∧
            ({ gt with last_scanned_at := g.last_scanned_at,
                       wash_cycles := g.wash_cycles ++
                         [{ timestamp := now, method := method }] }
              : GarmentData) =
            { g with garment_state := .washing,
                     wear_count_since_wash := 0,
                     last_washed := some now,
                     wash_cycles := g.wash_cycles ++
                       [{ timestamp := now, method := method }] })) ∧
      (dictGet garments tag = none →
        async_log_wash_cycle garments tag method now = (garments, false)) := by
  intro garments tag method now
  constructor
  · intro g hg
    refine ⟨by simp [async_log_wash_cycle, hg], ?_, ?_, ?_⟩
    · simp [async_log_wash_cycle, hg, dictGet_dictSet_self]
    · intro t ht
      simp [async_log_wash_cycle, hg, dictGet_dictSet_ne garments tag t _ ht]
    · intro sid hst
      have hT : TRANSITIONS .washer g.garment_state = some .washing := by
        rw [hst]; decide
      refine ⟨(transitionStep g .washer sid now).1, ?_, ?_⟩
      · simp [transition, transitionStep, hT]
      · simp [transitionStep, hT]
  · intro hg
    simp [async_log_wash_cycle, hg]

/-- Witness for C8: manually logging a hand wash of the laundry-bin sample
garment succeeds, zeroes the since-wash counter, appends the record, and
matches the washer-scan effect up to scanner id and method label. -/
theorem async_log_wash_cycle_spec_witness :
    (async_log_wash_cycle [("tag1", binSample)] "tag1" "hand" "t2").2 =
      true ∧
    dictGet (async_log_wash_cycle [("tag1", binSample)] "tag1" "hand"
      "t2").1 "tag1" =
      some { binSample with garment_state := .washing,
                            wear_count_since_wash := 0,
                            last_washed := some "t2",
                            wash_cycles := binSample.wash_cycles ++
                              [{ timestamp := "t2", method := "hand" }] } ∧
    ∃ gt : GarmentData, transition binSample .washer "s9" "t2" = some gt ∧
      ({ gt with last_scanned_at := binSample.last_scanned_at,
                 wash_cycles := binSample.wash_cycles ++
                   [{ timestamp := "t2", method := "hand" }] }
        : GarmentData) =
      { binSample with garment_state := .washing,
                       wear_count_since_wash := 0,
                       last_washed := some "t2",
                       wash_cycles := binSample.wash_cycles ++
                         [{ timestamp := "t2", method := "hand" }] } := by
  have h := (async_log_wash_cycle_spec [("tag1", binSample)] "tag1" "hand"
    "t2").1 binSample (by decide)
  exact ⟨h.1, h.2.1, h.2.2.2 "s9" (by decide)⟩

/-- Claim C9: a scan event with a missing (or falsy) tag_id or scanner_id is
fully ignored — no garment change and no signal; so is one whose scanner_id
does not resolve to a role; when the scanner resolves but the tag has no
garment record, exactly one unknown-tag notification carrying the tag id
and the role's value string is emitted and the garment directory is left
unchanged. -/
theorem handle_tag_scanned_lookup_failures :
    ∀ (scanners : Scanners) (garments : Garments) (ev : ScanEvent)
      (now : String),
      (ev.tag_id = none ∨ ev.scanner_id = none ∨
       ev.tag_id = some "" ∨ ev.scanner_id = some "" →
        handle_tag_scanned scanners garments ev now =
          (garments, .ignored)) ∧
      (∀ tag sid, ev.tag_id = some tag → ev.scanner_id = some sid →
        get_scanner_role scanners sid = none →
        handle_tag_scanned scanners garments ev now =
          (garments, .ignored)) ∧
      (∀ tag sid role, ev.tag_id = some tag → ev.scanner_id = some sid →
        tag ≠ "" → sid ≠ "" →
        get_scanner_role scanners sid = some role →
        dictGet garments tag = none →
        handle_tag_scanned scanners garments ev now =
          (garments, .unknownTag tag role.value)) := by
  intro scanners garments ev now
  rcases ev with ⟨tg, sc⟩
  refine ⟨?_, ?_, ?_⟩
  · intro h
    rcases tg with _ | tag
    · simp [handle_tag_scanned]
    · rcases sc with _ | sid
      · simp [handle_tag_scanned]
      · simp only [ScanEvent.tag_id, ScanEvent.scanner_id,
          Option.some.injEq, reduceCtorEq, false_or] at h
        rcases h with h | h <;> simp [handle_tag_scanned, h]
  · intro tag sid htag hsid hrole
    cases htag
    cases hsid
    by_cases hemp : tag = "" ∨ sid = ""
    · simp [handle_tag_scanned, hemp]
    · simp [handle_tag_scanned, hemp, hrole]
  · intro tag sid role htag hsid ht hs hrole hg
    cases htag
    cases hsid
    have hemp : ¬(tag = "" ∨ sid = "") := by
      simp [ht, hs]
    simp [handle_tag_scanned, hemp, hrole, hg]

/-- Witness for C9: with one registered closet scanner and an empty garment
directory, scanning an unknown tag fires exactly the unknown-tag
notification with the role string, and an unregistered scanner is silent. -/
theorem handle_tag_scanned_lookup_failures_witness :
    handle_tag_scanned
      [("s1", { role := some "closet", name := some "Closet" })] []
      { tag_id := some "tagX", scanner_id := some "s1" } "t1" =
      ([], .unknownTag "tagX" (ScannerRole.value .closet)) ∧
    handle_tag_scanned
      [("s1", { role := some "closet", name := some "Closet" })] []
      { tag_id := some "tagX", scanner_id := some "s2" } "t1" =
      ([], .ignored) := by
  have h1 := (handle_tag_scanned_lookup_failures
    [("s1", { role := some "closet", name := some "Closet" })] []
    { tag_id := some "tagX", scanner_id := some "s1" } "t1").2.2
    "tagX" "s1" .closet rfl rfl (by decide) (by decide) (by decide)
    (by decide)
  have h2 := (handle_tag_scanned_lookup_failures
    [("s1", { role := some "closet", name := some "Closet" })] []
    { tag_id := some "tagX", scanner_id := some "s2" } "t1").2.1
    "tagX" "s2" rfl rfl (by decide)
  exact ⟨h1, h2⟩

/-- Claim C10: the needs-washing indicator of a known garment is on exactly
when `wear_count_since_wash` has reached `needs_washing_threshold`
(equality included), and is None rather than false for a tag with no
garment record. -/
theorem needs_washing_is_on_spec :
    ∀ (garments : Garments) (tag : String),
      (dictGet garments tag = none →
        needs_washing_is_on garments tag = none) ∧
      (∀ g, dictGet garments tag = some g →
        ((needs_washing_is_on garments tag = some true ↔
          g.needs_washing_threshold ≤ g.wear_count_since_wash) ∧
         (g.wear_count_since_wash = g.needs_washing_threshold →
          needs_washing_is_on garments tag = some true))) := by
  intro garments tag
  constructor
  · intro h
    simp [needs_washing_is_on, h]
  · intro g hg
    constructor
    · simp [needs_washing_is_on, hg]
    · intro he
      simp [needs_washing_is_on, hg, he]

/-- Witness for C10: a garment worn exactly threshold-many (3) times reads
as needing washing, and an unknown tag reads as None. -/
theorem needs_washing_is_on_spec_witness :
    needs_washing_is_on [("tag1", wornThrice)] "tag1" = some true ∧
    needs_washing_is_on [] "tagX" = none := by
  have h1 := ((needs_washing_is_on_spec [("tag1", wornThrice)] "tag1").2
    wornThrice (by decide)).2 (by decide)
  have h2 := (needs_washing_is_on_spec [] "tagX").1 (by decide)
  exact ⟨h1, h2⟩

end WardrobeManager
